import Mathlib

/-!
Verification of the XAUUSD strategy engine.

Shallow embedding of `src/lib/trading/strategies/xauusd-strategy.ts`
(class `XAUUSDStrategy`). Prices and indicator values are modelled as
exact rationals (`ℚ`); JavaScript numbers are IEEE doubles, so binary
rounding artifacts are out of scope. The indicator adapters
(`getLatestKeltnerChannel`, …, `calculateATR`, `isMACDBullishCrossover`,
`isMACDBearishCrossover`) are imported from other modules of the
repository and are treated as black-box parameters, per the spec's
external-interface contracts: a value-returning adapter may return a
result, return `null`, or throw, which we model as
`Except String (Option α)`; the crossover detectors return plain
booleans. Division on `ℚ` takes the value `0` at a zero divisor (where
JavaScript would produce an infinity); theorems touching the divisor
state the relevant nonzero facts explicitly.
-/

namespace XAUUSDStrategy

/-- A price candle, from `../types` (fields used by the strategy). -/
structure Candle where
  openPrice : ℚ
  high : ℚ
  low : ℚ
  close : ℚ
  openTime : Int
  closeTime : Int
deriving DecidableEq

/-- Keltner channel value `{upper, middle, lower}`. -/
structure KeltnerChannel where
  upper : ℚ
  middle : ℚ
  lower : ℚ
deriving DecidableEq

/-- Bollinger bands value `{upper, middle, lower}`. -/
structure BollingerBands where
  upper : ℚ
  middle : ℚ
  lower : ℚ
deriving DecidableEq

/-- MACD value `{macd, signal, histogram}`. -/
structure MACDValue where
  macd : ℚ
  signal : ℚ
  histogram : ℚ
deriving DecidableEq

/-- SuperTrend direction. -/
inductive Trend where
  | up
  | down
deriving DecidableEq

/-- SuperTrend value `{value, trend}`. -/
structure SuperTrendValue where
  value : ℚ
  trend : Trend
deriving DecidableEq

/-- The atomic indicator snapshot `IndicatorValues` of `../types`. -/
structure IndicatorValues where
  keltner : KeltnerChannel
  bollinger : BollingerBands
  macd : MACDValue
  cci : ℚ
  supertrend : SuperTrendValue
  atr : ℚ
deriving DecidableEq

/-- `KeltnerChannelConfig` from `../indicators/keltner`. -/
structure KeltnerChannelConfig where
  maPeriod : Nat
  atrPeriod : Nat
  atrMultiple : ℚ
deriving DecidableEq

/-- `BollingerBandsConfig` from `../indicators/bollinger`. -/
structure BollingerBandsConfig where
  period : Nat
  deviation : ℚ
deriving DecidableEq

/-- `MACDConfig` from `../indicators/macd`. -/
structure MACDConfig where
  fastPeriod : Nat
  slowPeriod : Nat
  signalPeriod : Nat
deriving DecidableEq

/-- `CCIConfig` from `../indicators/cci`. -/
structure CCIConfig where
  period : Nat
deriving DecidableEq

/-- `SuperTrendConfig` from `../indicators/supertrend`. -/
structure SuperTrendConfig where
  period : Nat
  multiplier : ℚ
deriving DecidableEq

/-- The `config.strategy.indicators` block of `TradingConfig`. -/
structure IndicatorsConfig where
  keltner : KeltnerChannelConfig
  bollinger : BollingerBandsConfig
  macd : MACDConfig
  cci : CCIConfig
  supertrend : SuperTrendConfig
deriving DecidableEq

/-- The `config.strategy` block of `TradingConfig`. In the TypeScript
types `aggressiveness` has type `1 | 2 | 3`; we model it as `Nat` and
state tier-dependent theorems for the values 1, 2 and 3. -/
structure StrategyConfig where
  indicators : IndicatorsConfig
  aggressiveness : Nat
  trailingDistance : ℚ
deriving DecidableEq

/-- The `TradingConfig` consumed by the strategy (the part it reads). -/
structure TradingConfig where
  strategy : StrategyConfig
deriving DecidableEq

/-- Position side. -/
inductive Side where
  | long
  | short
deriving DecidableEq

/-- Result of `checkLongEntry` / `checkShortEntry`. -/
structure EntryCheck where
  signal : Bool
  reason : String
deriving DecidableEq

/-- Models JavaScript `Number.prototype.toFixed(d)` over exact
rationals: format `|q|` rounded to `d` decimal digits (ties away from
zero on the decimal value, per the ECMAScript algorithm of picking the
larger candidate on the absolute value), with a leading minus sign for
negative inputs; the rounded integer `⌊|q| * 10 ^ d + 1 / 2⌋` is computed
directly on the numerator and denominator. Binary-float representation
artifacts of the real `toFixed` are out of scope. -/
def toFixed (d : Nat) (q : ℚ) : String :=
  let sign := if q < 0 then "-" else ""
  let p : Nat := 10 ^ d
  let n : Nat := (2 * q.num.natAbs * p + q.den) / (2 * q.den)
  if d = 0 then
    sign ++ toString n
  else
    let fracStr := toString (n % p)
    let pad := String.mk (List.replicate (d - fracStr.length) '0')
    sign ++ toString (n / p) ++ "." ++ pad ++ fracStr

/-- `checkLongEntry` (lines 158–235 of the source): the short-circuiting
guard pipeline for a long entry. `isMACDBullishCrossover` is the
imported crossover adapter, passed as a parameter; the source calls it
with the literal config `{fastPeriod: 12, slowPeriod: 26,
signalPeriod: 9}`. The `indicators5m` argument is accepted but unused,
as in the source. -/
def checkLongEntry
    (isMACDBullishCrossover : List Candle → MACDConfig → Bool)
    (price : ℚ) (indicators1m : IndicatorValues) (candles1m : List Candle)
    (aggressiveness : Nat) (indicators5m : Option IndicatorValues) :
    EntryCheck :=
  let _ := indicators5m
  if ¬ price > indicators1m.keltner.upper then
    { signal := false,
      reason := "价格未突破KC上轨 (" ++ toFixed 2 price ++ " <= "
        ++ toFixed 2 indicators1m.keltner.upper ++ ")" }
  else if ¬ price > indicators1m.bollinger.upper then
    { signal := false,
      reason := "价格未突破BB上轨 (" ++ toFixed 2 price ++ " <= "
        ++ toFixed 2 indicators1m.bollinger.upper ++ ")" }
  else if ¬ isMACDBullishCrossover candles1m
      { fastPeriod := 12, slowPeriod := 26, signalPeriod := 9 } then
    { signal := false, reason := "MACD未金叉" }
  else if aggressiveness = 1 then
    if ¬ indicators1m.cci > 100 then
      { signal := false,
        reason := "CCI不够强 (" ++ toFixed 0 indicators1m.cci ++ " <= 100)" }
    else if ¬ indicators1m.supertrend.trend = Trend.up then
      { signal := false, reason := "SuperTrend不是看涨趋势" }
    else
      { signal := true,
        reason := "做多 (保守): KC+BB+MACD金叉 CCI="
          ++ toFixed 0 indicators1m.cci ++ " ST↑" }
  else if aggressiveness = 2 then
    if ¬ indicators1m.cci > 50 then
      { signal := false,
        reason := "CCI不够强 (" ++ toFixed 0 indicators1m.cci ++ " <= 50)" }
    else if ¬ indicators1m.supertrend.trend = Trend.up then
      { signal := false, reason := "SuperTrend不是看涨趋势" }
    else
      { signal := true,
        reason := "做多 (中等): KC+BB+MACD金叉 CCI="
          ++ toFixed 0 indicators1m.cci ++ " ST↑" }
  else
    if ¬ indicators1m.cci > 0 then
      { signal := false,
        reason := "CCI为负 (" ++ toFixed 0 indicators1m.cci ++ " <= 0)" }
    else
      { signal := true,
        reason := "做多 (激进): KC+BB+MACD金叉 CCI="
          ++ toFixed 0 indicators1m.cci }

/-- `checkShortEntry` (lines 250–327 of the source), the mirror of
`checkLongEntry` with the lower bands, a bearish crossover and negated
CCI thresholds. -/
def checkShortEntry
    (isMACDBearishCrossover : List Candle → MACDConfig → Bool)
    (price : ℚ) (indicators1m : IndicatorValues) (candles1m : List Candle)
    (aggressiveness : Nat) (indicators5m : Option IndicatorValues) :
    EntryCheck :=
  let _ := indicators5m
  if ¬ price < indicators1m.keltner.lower then
    { signal := false,
      reason := "价格未跌破KC下轨 (" ++ toFixed 2 price ++ " >= "
        ++ toFixed 2 indicators1m.keltner.lower ++ ")" }
  else if ¬ price < indicators1m.bollinger.lower then
    { signal := false,
      reason := "价格未跌破BB下轨 (" ++ toFixed 2 price ++ " >= "
        ++ toFixed 2 indicators1m.bollinger.lower ++ ")" }
  else if ¬ isMACDBearishCrossover candles1m
      { fastPeriod := 12, slowPeriod := 26, signalPeriod := 9 } then
    { signal := false, reason := "MACD未死叉" }
  else if aggressiveness = 1 then
    if ¬ indicators1m.cci < -100 then
      { signal := false,
        reason := "CCI不够强 (" ++ toFixed 0 indicators1m.cci ++ " >= -100)" }
    else if ¬ indicators1m.supertrend.trend = Trend.down then
      { signal := false, reason := "SuperTrend不是看跌趋势" }
    else
      { signal := true,
        reason := "做空 (保守): KC+BB+MACD死叉 CCI="
          ++ toFixed 0 indicators1m.cci ++ " ST↓" }
  else if aggressiveness = 2 then
    if ¬ indicators1m.cci < -50 then
      { signal := false,
        reason := "CCI不够强 (" ++ toFixed 0 indicators1m.cci ++ " >= -50)" }
    else if ¬ indicators1m.supertrend.trend = Trend.down then
      { signal := false, reason := "SuperTrend不是看跌趋势" }
    else
      { signal := true,
        reason := "做空 (中等): KC+BB+MACD死叉 CCI="
          ++ toFixed 0 indicators1m.cci ++ " ST↓" }
  else
    if ¬ indicators1m.cci < 0 then
      { signal := false,
        reason := "CCI为正 (" ++ toFixed 0 indicators1m.cci ++ " >= 0)" }
    else
      { signal := true,
        reason := "做空 (激进): KC+BB+MACD死叉 CCI="
          ++ toFixed 0 indicators1m.cci }

/-- The black-box indicator adapters imported from `../indicators/*`
(out of scope per the spec, consumed with the §6 contracts). A
value-returning adapter may return a value, return `null` (`Option`),
or throw (`Except.error`); the crossover detectors return booleans. -/
structure IndicatorAdapters where
  getLatestKeltnerChannel :
    List Candle → KeltnerChannelConfig → Except String (Option KeltnerChannel)
  getLatestBollingerBands :
    List Candle → BollingerBandsConfig → Except String (Option BollingerBands)
  getLatestMACD : List Candle → MACDConfig → Except String (Option MACDValue)
  getLatestCCI : List Candle → CCIConfig → Except String (Option ℚ)
  getLatestSuperTrend :
    List Candle → SuperTrendConfig → Except String (Option SuperTrendValue)
  calculateATR : List ℚ → List ℚ → List ℚ → Nat → Except String (List ℚ)
  isMACDBullishCrossover : List Candle → MACDConfig → Bool
  isMACDBearishCrossover : List Candle → MACDConfig → Bool

/-- `calculateIndicators` (lines 67–143 of the source): reject candle
histories shorter than 35, run the six adapters in order inside the
`try` block (a thrown error short-circuits and is caught, yielding
`null`; the catch block only logs), then return `null` if any adapter
result is `null` or the ATR series is empty, else the assembled
snapshot whose `atr` is the last ATR value. -/
def calculateIndicators (A : IndicatorAdapters) (config : TradingConfig)
    (candles : List Candle) : Option IndicatorValues :=
  if candles.length < 35 then
    none
  else
    let keltnerConfig : KeltnerChannelConfig :=
      { maPeriod := config.strategy.indicators.keltner.maPeriod
        atrPeriod := config.strategy.indicators.keltner.atrPeriod
        atrMultiple := config.strategy.indicators.keltner.atrMultiple }
    let bollingerConfig : BollingerBandsConfig :=
      { period := config.strategy.indicators.bollinger.period
        deviation := config.strategy.indicators.bollinger.deviation }
    let macdConfig : MACDConfig :=
      { fastPeriod := config.strategy.indicators.macd.fastPeriod
        slowPeriod := config.strategy.indicators.macd.slowPeriod
        signalPeriod := config.strategy.indicators.macd.signalPeriod }
    let cciConfig : CCIConfig :=
      { period := config.strategy.indicators.cci.period }
    let supertrendConfig : SuperTrendConfig :=
      { period := config.strategy.indicators.supertrend.period
        multiplier := config.strategy.indicators.supertrend.multiplier }
    match A.getLatestKeltnerChannel candles keltnerConfig with
    | Except.error _ => none
    | Except.ok keltner =>
    match A.getLatestBollingerBands candles bollingerConfig with
    | Except.error _ => none
    | Except.ok bollinger =>
    match A.getLatestMACD candles macdConfig with
    | Except.error _ => none
    | Except.ok macd =>
    match A.getLatestCCI candles cciConfig with
    | Except.error _ => none
    | Except.ok cci =>
    match A.getLatestSuperTrend candles supertrendConfig with
    | Except.error _ => none
    | Except.ok supertrend =>
    match A.calculateATR (candles.map fun c => c.high)
      (candles.map fun c => c.low) (candles.map fun c => c.close)
      config.strategy.indicators.keltner.atrPeriod with
    | Except.error _ => none
    | Except.ok atrValues =>
    match keltner, bollinger, macd, cci, supertrend, atrValues.getLast? with
    | some keltner, some bollinger, some macd, some cci, some supertrend,
        some atr =>
      some { keltner, bollinger, macd, cci, supertrend, atr }
    | _, _, _, _, _, _ => none

/-- Signal direction including the no-signal outcome; the `type` field
of `Signal`. -/
inductive SignalType where
  | long
  | short
  | none
deriving DecidableEq

/-- The `Signal` value object of `../types` (fields the strategy
produces). -/
structure Signal where
  type : SignalType
  reason : String
  timestamp : Int
  price : ℚ
  indicators : Option IndicatorValues := none
deriving DecidableEq

/-- The four private mutable debug counters of the class (lines
330–333); threaded explicitly since the embedding is stateless. -/
structure Counters where
  signalCheckCount : Nat
  indicatorFailCount : Nat
  longCheckCount : Nat
  shortCheckCount : Nat
deriving DecidableEq

/-- `generateSignal` (lines 342–440 of the source). The instance state
(the debug counters) is passed in and the updated counters are returned
alongside the `Signal`; `now` models `Date.now()`, read only on the
empty-candle-list fallback. The `console.log` calls on signal emission
write to a sink and read nothing, so they are not modelled. -/
def generateSignal (A : IndicatorAdapters) (config : TradingConfig)
    (st : Counters) (now : Int) (candles1m : List Candle)
    (candles5m : Option (List Candle)) : Signal × Counters :=
  let st := { st with signalCheckCount := st.signalCheckCount + 1 }
  match candles1m.getLast? with
  | Option.none =>
    ({ type := SignalType.none, reason := "No candle data",
       timestamp := now, price := 0 }, st)
  | Option.some latestCandle1m =>
    let price := latestCandle1m.close
    match calculateIndicators A config candles1m with
    | Option.none =>
      let st := { st with indicatorFailCount := st.indicatorFailCount + 1 }
      ({ type := SignalType.none, reason := "Insufficient data for indicators",
         timestamp := latestCandle1m.closeTime, price := price }, st)
    | Option.some indicators1m =>
      let indicators5m : Option IndicatorValues :=
        match candles5m with
        | Option.some cs =>
          if cs.length > 0 then calculateIndicators A config cs
          else Option.none
        | Option.none => Option.none
      let longCheck := checkLongEntry A.isMACDBullishCrossover price
        indicators1m candles1m config.strategy.aggressiveness indicators5m
      if longCheck.signal then
        let st := { st with longCheckCount := st.longCheckCount + 1 }
        ({ type := SignalType.long, reason := longCheck.reason,
           timestamp := latestCandle1m.closeTime, price := price,
           indicators := some indicators1m }, st)
      else
        let shortCheck := checkShortEntry A.isMACDBearishCrossover price
          indicators1m candles1m config.strategy.aggressiveness indicators5m
        if shortCheck.signal then
          let st := { st with shortCheckCount := st.shortCheckCount + 1 }
          ({ type := SignalType.short, reason := shortCheck.reason,
             timestamp := latestCandle1m.closeTime, price := price,
             indicators := some indicators1m }, st)
        else
          ({ type := SignalType.none, reason := "No entry conditions met",
             timestamp := latestCandle1m.closeTime, price := price,
             indicators := some indicators1m }, st)

/-- `calculateStopLoss` (lines 446–458): `min(kcLower, bbLower)` for
long, `max(kcUpper, bbUpper)` for short; `entryPrice` is accepted but
unused, as in the source. -/
def calculateStopLoss (entryPrice : ℚ) (side : Side)
    (indicators : IndicatorValues) : ℚ :=
  let _ := entryPrice
  match side with
  | Side.long => min indicators.keltner.lower indicators.bollinger.lower
  | Side.short => max indicators.keltner.upper indicators.bollinger.upper

/-- `calculateTakeProfitLevels` (lines 464–477): the three R-multiple
levels `1.5, 2.5, 4.0` applied to `risk = |entryPrice - stopLoss|`. -/
def calculateTakeProfitLevels (entryPrice stopLoss : ℚ) (side : Side) :
    List ℚ :=
  let risk := |entryPrice - stopLoss|
  let rMultiples : List ℚ := [1.5, 2.5, 4.0]
  rMultiples.map fun rMultiple =>
    match side with
    | Side.long => entryPrice + risk * rMultiple
    | Side.short => entryPrice - risk * rMultiple

/-- The risk distance `risk = Math.abs(entryPrice - initialStopLoss)`
computed at line 492, the (unguarded) divisor of the profit-in-R
computation. -/
def riskDistance (entryPrice initialStopLoss : ℚ) : ℚ :=
  |entryPrice - initialStopLoss|

/-- Result record of `calculateTrailingStop`. -/
structure TrailingStopResult where
  trailingStop : Option ℚ
  highestPrice : ℚ
  lowestPrice : ℚ
  active : Bool
deriving DecidableEq

/-- `calculateTrailingStop` (lines 483–534): update the extreme price,
compute `profitR = profit / risk` (division is unguarded in the source;
on `ℚ` a zero divisor yields `profitR = 0`, where JavaScript would
produce an infinite or NaN quotient — theorems concerning the division
carry the relevant nonzero facts), and when `profitR ≥ 1` return the
stop `max(breakeven, extreme - atr * trailingDistance)` for long
(`min`, mirrored, for short), else no trailing stop. -/
def calculateTrailingStop (config : TradingConfig)
    (entryPrice currentPrice : ℚ)
    (highestPrice lowestPrice : Option ℚ)
    (initialStopLoss : ℚ) (side : Side) (atr : ℚ) : TrailingStopResult :=
  let risk := riskDistance entryPrice initialStopLoss
  let trailingDistanceATR := config.strategy.trailingDistance
  match side with
  | Side.long =>
    let newHighest :=
      match highestPrice with
      | Option.none => currentPrice
      | Option.some h => max h currentPrice
    let profit := currentPrice - entryPrice
    let profitR := profit / risk
    if profitR ≥ 1 then
      let breakeven := entryPrice
      let trailingStop := max breakeven (newHighest - atr * trailingDistanceATR)
      { trailingStop := some trailingStop, highestPrice := newHighest,
        lowestPrice := 0, active := true }
    else
      { trailingStop := none, highestPrice := newHighest,
        lowestPrice := 0, active := false }
  | Side.short =>
    let newLowest :=
      match lowestPrice with
      | Option.none => currentPrice
      | Option.some l => min l currentPrice
    let profit := entryPrice - currentPrice
    let profitR := profit / risk
    if profitR ≥ 1 then
      let breakeven := entryPrice
      let trailingStop := min breakeven (newLowest + atr * trailingDistanceATR)
      { trailingStop := some trailingStop, highestPrice := 0,
        lowestPrice := newLowest, active := true }
    else
      { trailingStop := none, highestPrice := 0,
        lowestPrice := newLowest, active := false }

/-! ## Characterization lemmas for the entry checks -/

/-- The fixed MACD configuration `{fastPeriod: 12, slowPeriod: 26,
signalPeriod: 9}` hard-coded in both entry checks. -/
def fixedMACDConfig : MACDConfig :=
  { fastPeriod := 12, slowPeriod := 26, signalPeriod := 9 }

lemma checkLongEntry_signal_iff
    (cross : List Candle → MACDConfig → Bool) (price : ℚ)
    (ind : IndicatorValues) (candles : List Candle) (aggr : Nat)
    (ind5 : Option IndicatorValues) :
    (checkLongEntry cross price ind candles aggr ind5).signal = true ↔
      price > ind.keltner.upper ∧ price > ind.bollinger.upper ∧
      cross candles fixedMACDConfig = true ∧
      ((aggr = 1 ∧ ind.cci > 100 ∧ ind.supertrend.trend = Trend.up) ∨
       (aggr = 2 ∧ ind.cci > 50 ∧ ind.supertrend.trend = Trend.up) ∨
       (aggr ≠ 1 ∧ aggr ≠ 2 ∧ ind.cci > 0)) := by
  unfold checkLongEntry fixedMACDConfig
  split_ifs <;> simp_all

lemma checkShortEntry_signal_iff
    (cross : List Candle → MACDConfig → Bool) (price : ℚ)
    (ind : IndicatorValues) (candles : List Candle) (aggr : Nat)
    (ind5 : Option IndicatorValues) :
    (checkShortEntry cross price ind candles aggr ind5).signal = true ↔
      price < ind.keltner.lower ∧ price < ind.bollinger.lower ∧
      cross candles fixedMACDConfig = true ∧
      ((aggr = 1 ∧ ind.cci < -100 ∧ ind.supertrend.trend = Trend.down) ∨
       (aggr = 2 ∧ ind.cci < -50 ∧ ind.supertrend.trend = Trend.down) ∨
       (aggr ≠ 1 ∧ aggr ≠ 2 ∧ ind.cci < 0)) := by
  unfold checkShortEntry fixedMACDConfig
  split_ifs <;> simp_all

/-! ## C7: take-profit ladder -/

/-- C7: for every entry price, stop loss and side,
`calculateTakeProfitLevels` returns exactly the three levels at 1.5,
2.5 and 4.0 times `|entryPrice - stopLoss|` added (long) or subtracted
(short), in ascending risk order; in particular entry 2000 / stop 1990
long yields `[2015, 2025, 2040]`. -/
theorem C7_take_profit_ladder (entryPrice stopLoss : ℚ) :
    calculateTakeProfitLevels entryPrice stopLoss Side.long =
      [entryPrice + |entryPrice - stopLoss| * 1.5,
       entryPrice + |entryPrice - stopLoss| * 2.5,
       entryPrice + |entryPrice - stopLoss| * 4.0] ∧
    calculateTakeProfitLevels entryPrice stopLoss Side.short =
      [entryPrice - |entryPrice - stopLoss| * 1.5,
       entryPrice - |entryPrice - stopLoss| * 2.5,
       entryPrice - |entryPrice - stopLoss| * 4.0] ∧
    calculateTakeProfitLevels 2000 1990 Side.long = [2015, 2025, 2040] := by
  refine ⟨rfl, rfl, ?_⟩
  unfold calculateTakeProfitLevels
  norm_num

/-! ## C8: initial stop-loss -/

/-- C8: `calculateStopLoss` returns the lesser of the Keltner and
Bollinger lower bands for long and the greater of the two upper bands
for short, independently of the entry price argument. -/
theorem C8_stop_loss_bands (entryPrice entryPrice' : ℚ) (side : Side)
    (ind : IndicatorValues) :
    calculateStopLoss entryPrice Side.long ind =
      min ind.keltner.lower ind.bollinger.lower ∧
    calculateStopLoss entryPrice Side.short ind =
      max ind.keltner.upper ind.bollinger.upper ∧
    calculateStopLoss entryPrice side ind =
      calculateStopLoss entryPrice' side ind := by
  refine ⟨rfl, rfl, ?_⟩
  cases side <;> rfl

/-! ## Concrete sample inputs used by witnesses -/

/-- Crossover adapter that always reports a crossover. -/
def alwaysCross : List Candle → MACDConfig → Bool := fun _ _ => true

/-- Crossover adapter that never reports a crossover. -/
def neverCross : List Candle → MACDConfig → Bool := fun _ _ => false

/-- Snapshot with a strong bullish configuration (CCI 120, SuperTrend
up). -/
def indHigh : IndicatorValues :=
  { keltner := { upper := 105, middle := 100, lower := 95 }
    bollinger := { upper := 104, middle := 100, lower := 96 }
    macd := { macd := 1, signal := 0, histogram := 1 }
    cci := 120
    supertrend := { value := 100, trend := Trend.up }
    atr := 2 }

/-- Bullish snapshot whose Bollinger upper band sits above the Keltner
upper band, so a price can break Keltner but not Bollinger. -/
def indGapLong : IndicatorValues :=
  { indHigh with bollinger := { upper := 110, middle := 100, lower := 90 } }

/-- Weakly bullish snapshot (CCI 50): passes tier 3, fails tiers 1 and
2. -/
def indMid : IndicatorValues := { indHigh with cci := 50 }

/-- Snapshot with a strong bearish configuration (CCI -120, SuperTrend
down). -/
def indLow : IndicatorValues :=
  { indHigh with cci := -120
                 supertrend := { value := 100, trend := Trend.down } }

/-- Bearish snapshot whose Bollinger lower band sits below the Keltner
lower band, so a price can break Keltner but not Bollinger. -/
def indGapShort : IndicatorValues :=
  { indLow with bollinger := { upper := 110, middle := 100, lower := 90 } }

/-- A simple concrete configuration (aggressiveness 1, trailing
distance multiplier 1). -/
def cfgUnit : TradingConfig :=
  { strategy :=
    { indicators :=
      { keltner := { maPeriod := 20, atrPeriod := 10, atrMultiple := 2 }
        bollinger := { period := 20, deviation := 2 }
        macd := { fastPeriod := 12, slowPeriod := 26, signalPeriod := 9 }
        cci := { period := 20 }
        supertrend := { period := 10, multiplier := 3 } }
      aggressiveness := 1
      trailingDistance := 1 } }

/-- A concrete candle. -/
def candle0 : Candle :=
  { openPrice := 100, high := 101, low := 99, close := 100,
    openTime := 0, closeTime := 60 }

/-- A 35-candle history (the documented minimum). -/
def candles35 : List Candle := List.replicate 35 candle0

/-- Adapters that all succeed, producing the parts of `indHigh` (the
ATR series being `[2]`). -/
def okAdapters : IndicatorAdapters :=
  { getLatestKeltnerChannel := fun _ _ => Except.ok (some indHigh.keltner)
    getLatestBollingerBands := fun _ _ => Except.ok (some indHigh.bollinger)
    getLatestMACD := fun _ _ => Except.ok (some indHigh.macd)
    getLatestCCI := fun _ _ => Except.ok (some indHigh.cci)
    getLatestSuperTrend := fun _ _ => Except.ok (some indHigh.supertrend)
    calculateATR := fun _ _ _ _ => Except.ok [2]
    isMACDBullishCrossover := fun _ _ => true
    isMACDBearishCrossover := fun _ _ => false }

/-- Adapters identical to `okAdapters` except that the MACD adapter
throws. -/
def errAdapters : IndicatorAdapters :=
  { okAdapters with getLatestMACD := fun _ _ => Except.error "boom" }

/-! ## C3: guard pipeline of the entry checks -/

set_option maxHeartbeats 3200000 in
/-- C3: `checkLongEntry` signals exactly when price strictly exceeds
both the Keltner and Bollinger upper bands, the fixed-config
(12/26/9) bullish crossover holds, and the tier's auxiliary filter
holds (tier 1: CCI > 100 and SuperTrend up; tier 2: CCI > 50 and
SuperTrend up; tier 3: CCI > 0, all strict); on failure the reason
names the first unmet guard in the order Keltner, Bollinger, MACD — in
particular a Keltner failure is reported as the Keltner condition
regardless of the Bollinger band. Mirrored for `checkShortEntry` with
the lower bands, a bearish crossover and negated thresholds. -/
theorem C3_entry_guards (cross crossB : List Candle → MACDConfig → Bool)
    (price : ℚ) (ind : IndicatorValues) (candles : List Candle)
    (ind5 : Option IndicatorValues) :
    ((checkLongEntry cross price ind candles 1 ind5).signal = true ↔
      price > ind.keltner.upper ∧ price > ind.bollinger.upper ∧
      cross candles fixedMACDConfig = true ∧
      ind.cci > 100 ∧ ind.supertrend.trend = Trend.up) ∧
    ((checkLongEntry cross price ind candles 2 ind5).signal = true ↔
      price > ind.keltner.upper ∧ price > ind.bollinger.upper ∧
      cross candles fixedMACDConfig = true ∧
      ind.cci > 50 ∧ ind.supertrend.trend = Trend.up) ∧
    ((checkLongEntry cross price ind candles 3 ind5).signal = true ↔
      price > ind.keltner.upper ∧ price > ind.bollinger.upper ∧
      cross candles fixedMACDConfig = true ∧ ind.cci > 0) ∧
    (∀ aggr : Nat, ¬ price > ind.keltner.upper →
      (checkLongEntry cross price ind candles aggr ind5).reason =
        "价格未突破KC上轨 (" ++ toFixed 2 price ++ " <= "
          ++ toFixed 2 ind.keltner.upper ++ ")") ∧
    (∀ aggr : Nat, price > ind.keltner.upper →
      ¬ price > ind.bollinger.upper →
      (checkLongEntry cross price ind candles aggr ind5).reason =
        "价格未突破BB上轨 (" ++ toFixed 2 price ++ " <= "
          ++ toFixed 2 ind.bollinger.upper ++ ")") ∧
    (∀ aggr : Nat, price > ind.keltner.upper →
      price > ind.bollinger.upper →
      cross candles fixedMACDConfig = false →
      (checkLongEntry cross price ind candles aggr ind5).reason =
        "MACD未金叉") ∧
    ((checkShortEntry crossB price ind candles 1 ind5).signal = true ↔
      price < ind.keltner.lower ∧ price < ind.bollinger.lower ∧
      crossB candles fixedMACDConfig = true ∧
      ind.cci < -100 ∧ ind.supertrend.trend = Trend.down) ∧
    ((checkShortEntry crossB price ind candles 2 ind5).signal = true ↔
      price < ind.keltner.lower ∧ price < ind.bollinger.lower ∧
      crossB candles fixedMACDConfig = true ∧
      ind.cci < -50 ∧ ind.supertrend.trend = Trend.down) ∧
    ((checkShortEntry crossB price ind candles 3 ind5).signal = true ↔
      price < ind.keltner.lower ∧ price < ind.bollinger.lower ∧
      crossB candles fixedMACDConfig = true ∧ ind.cci < 0) ∧
    (∀ aggr : Nat, ¬ price < ind.keltner.lower →
      (checkShortEntry crossB price ind candles aggr ind5).reason =
        "价格未跌破KC下轨 (" ++ toFixed 2 price ++ " >= "
          ++ toFixed 2 ind.keltner.lower ++ ")") ∧
    (∀ aggr : Nat, price < ind.keltner.lower →
      ¬ price < ind.bollinger.lower →
      (checkShortEntry crossB price ind candles aggr ind5).reason =
        "价格未跌破BB下轨 (" ++ toFixed 2 price ++ " >= "
          ++ toFixed 2 ind.bollinger.lower ++ ")") ∧
    (∀ aggr : Nat, price < ind.keltner.lower →
      price < ind.bollinger.lower →
      crossB candles fixedMACDConfig = false →
      (checkShortEntry crossB price ind candles aggr ind5).reason =
        "MACD未死叉") ∧
    (price > ind.keltner.upper → price > ind.bollinger.upper →
      cross candles fixedMACDConfig = true → ¬ ind.cci > 100 →
      (checkLongEntry cross price ind candles 1 ind5).reason =
        "CCI不够强 (" ++ toFixed 0 ind.cci ++ " <= 100)") ∧
    (price > ind.keltner.upper → price > ind.bollinger.upper →
      cross candles fixedMACDConfig = true → ind.cci > 100 →
      ¬ ind.supertrend.trend = Trend.up →
      (checkLongEntry cross price ind candles 1 ind5).reason =
        "SuperTrend不是看涨趋势") ∧
    (price > ind.keltner.upper → price > ind.bollinger.upper →
      cross candles fixedMACDConfig = true → ¬ ind.cci > 50 →
      (checkLongEntry cross price ind candles 2 ind5).reason =
        "CCI不够强 (" ++ toFixed 0 ind.cci ++ " <= 50)") ∧
    (price > ind.keltner.upper → price > ind.bollinger.upper →
      cross candles fixedMACDConfig = true → ind.cci > 50 →
      ¬ ind.supertrend.trend = Trend.up →
      (checkLongEntry cross price ind candles 2 ind5).reason =
        "SuperTrend不是看涨趋势") ∧
    (price > ind.keltner.upper → price > ind.bollinger.upper →
      cross candles fixedMACDConfig = true → ¬ ind.cci > 0 →
      (checkLongEntry cross price ind candles 3 ind5).reason =
        "CCI为负 (" ++ toFixed 0 ind.cci ++ " <= 0)") ∧
    (price < ind.keltner.lower → price < ind.bollinger.lower →
      crossB candles fixedMACDConfig = true → ¬ ind.cci < -100 →
      (checkShortEntry crossB price ind candles 1 ind5).reason =
        "CCI不够强 (" ++ toFixed 0 ind.cci ++ " >= -100)") ∧
    (price < ind.keltner.lower → price < ind.bollinger.lower →
      crossB candles fixedMACDConfig = true → ind.cci < -100 →
      ¬ ind.supertrend.trend = Trend.down →
      (checkShortEntry crossB price ind candles 1 ind5).reason =
        "SuperTrend不是看跌趋势") ∧
    (price < ind.keltner.lower → price < ind.bollinger.lower →
      crossB candles fixedMACDConfig = true → ¬ ind.cci < -50 →
      (checkShortEntry crossB price ind candles 2 ind5).reason =
        "CCI不够强 (" ++ toFixed 0 ind.cci ++ " >= -50)") ∧
    (price < ind.keltner.lower → price < ind.bollinger.lower →
      crossB candles fixedMACDConfig = true → ind.cci < -50 →
      ¬ ind.supertrend.trend = Trend.down →
      (checkShortEntry crossB price ind candles 2 ind5).reason =
        "SuperTrend不是看跌趋势") ∧
    (price < ind.keltner.lower → price < ind.bollinger.lower →
      crossB candles fixedMACDConfig = true → ¬ ind.cci < 0 →
      (checkShortEntry crossB price ind candles 3 ind5).reason =
        "CCI为正 (" ++ toFixed 0 ind.cci ++ " >= 0)") := by
  refine ⟨?_, ?_, ?_, ?_, ?_, ?_, ?_, ?_, ?_, ?_, ?_, ?_, ?_, ?_, ?_, ?_,
    ?_, ?_, ?_, ?_, ?_, ?_⟩
  · rw [checkLongEntry_signal_iff]; simp
  · rw [checkLongEntry_signal_iff]; simp
  · rw [checkLongEntry_signal_iff]; simp
  · intro aggr h; unfold checkLongEntry; split_ifs; simp_all
  · intro aggr h h'; unfold checkLongEntry; split_ifs; simp_all
  · intro aggr h h' h''
    unfold checkLongEntry fixedMACDConfig at *
    split_ifs <;> simp_all
  · rw [checkShortEntry_signal_iff]; simp
  · rw [checkShortEntry_signal_iff]; simp
  · rw [checkShortEntry_signal_iff]; simp
  · intro aggr h; unfold checkShortEntry; split_ifs; simp_all
  · intro aggr h h'; unfold checkShortEntry; split_ifs; simp_all
  · intro aggr h h' h''
    unfold checkShortEntry fixedMACDConfig at *
    split_ifs <;> simp_all
  · intro h h' h'' h'''
    unfold checkLongEntry fixedMACDConfig at *
    split_ifs <;> simp_all
  · intro h h' h'' h''' h''''
    unfold checkLongEntry fixedMACDConfig at *
    split_ifs <;> simp_all
  · intro h h' h'' h'''
    unfold checkLongEntry fixedMACDConfig at *
    split_ifs <;> simp_all
  · intro h h' h'' h''' h''''
    unfold checkLongEntry fixedMACDConfig at *
    split_ifs <;> simp_all
  · intro h h' h'' h'''
    unfold checkLongEntry fixedMACDConfig at *
    split_ifs <;> simp_all
  · intro h h' h'' h'''
    unfold checkShortEntry fixedMACDConfig at *
    split_ifs <;> simp_all
  · intro h h' h'' h''' h''''
    unfold checkShortEntry fixedMACDConfig at *
    split_ifs <;> simp_all
  · intro h h' h'' h'''
    unfold checkShortEntry fixedMACDConfig at *
    split_ifs <;> simp_all
  · intro h h' h'' h''' h''''
    unfold checkShortEntry fixedMACDConfig at *
    split_ifs <;> simp_all
  · intro h h' h'' h'''
    unfold checkShortEntry fixedMACDConfig at *
    split_ifs <;> simp_all

/-- Witness for C3: at tier 1 the long check signals on a full breakout
(price 110, bands 105/104, crossover, CCI 120, SuperTrend up), and a
price of 100 that fails the Keltner band is reported as the Keltner
condition even though the snapshot's Bollinger band would also fail or
pass independently; the short mirror signals at price 90 on the bearish
snapshot. -/
theorem C3_entry_guards_witness :
    (checkLongEntry alwaysCross 110 indHigh [] 1 none).signal = true ∧
    (¬ (100:ℚ) > indHigh.keltner.upper) ∧
    (checkLongEntry alwaysCross 100 indHigh [] 1 none).reason =
      "价格未突破KC上轨 (" ++ toFixed 2 100 ++ " <= "
        ++ toFixed 2 indHigh.keltner.upper ++ ")" ∧
    ((106:ℚ) > indGapLong.keltner.upper) ∧
    (¬ (106:ℚ) > indGapLong.bollinger.upper) ∧
    (checkLongEntry alwaysCross 106 indGapLong [] 2 none).reason =
      "价格未突破BB上轨 (" ++ toFixed 2 106 ++ " <= "
        ++ toFixed 2 indGapLong.bollinger.upper ++ ")" ∧
    (checkLongEntry neverCross 110 indHigh [] 3 none).reason = "MACD未金叉" ∧
    (checkShortEntry alwaysCross 90 indLow [] 1 none).signal = true ∧
    (checkShortEntry alwaysCross 93 indGapShort [] 2 none).reason =
      "价格未跌破BB下轨 (" ++ toFixed 2 93 ++ " >= "
        ++ toFixed 2 indGapShort.bollinger.lower ++ ")" := by
  refine ⟨?_, by decide, ?_, by decide, by decide, ?_, ?_, ?_, ?_⟩
  · exact (C3_entry_guards alwaysCross alwaysCross 110 indHigh [] none).1.mpr
      (by decide)
  · exact (C3_entry_guards alwaysCross alwaysCross 100 indHigh []
      none).2.2.2.1 1 (by decide)
  · exact (C3_entry_guards alwaysCross alwaysCross 106 indGapLong []
      none).2.2.2.2.1 2 (by decide) (by decide)
  · exact (C3_entry_guards neverCross neverCross 110 indHigh []
      none).2.2.2.2.2.1 3 (by decide) (by decide) (by decide)
  · exact (C3_entry_guards alwaysCross alwaysCross 90 indLow []
      none).2.2.2.2.2.2.1.mpr (by decide)
  · exact (C3_entry_guards alwaysCross alwaysCross 93 indGapShort []
      none).2.2.2.2.2.2.2.2.2.2.1 2 (by decide) (by decide)

/-! ## C4: tier monotonicity -/

/-- C4: for a fixed price, snapshot, candle list and crossover adapter,
a tier-1 long signal implies tier-2 and tier-3 long signals, and a
tier-2 signal implies a tier-3 signal (same for short); the converse
fails on a concrete weakly-bullish snapshot (CCI 50) that signals at
tier 3 but not at tier 1. -/
theorem C4_tier_monotonicity (cross : List Candle → MACDConfig → Bool)
    (price : ℚ) (ind : IndicatorValues) (candles : List Candle)
    (ind5 : Option IndicatorValues) :
    ((checkLongEntry cross price ind candles 1 ind5).signal = true →
      (checkLongEntry cross price ind candles 2 ind5).signal = true ∧
      (checkLongEntry cross price ind candles 3 ind5).signal = true) ∧
    ((checkLongEntry cross price ind candles 2 ind5).signal = true →
      (checkLongEntry cross price ind candles 3 ind5).signal = true) ∧
    ((checkShortEntry cross price ind candles 1 ind5).signal = true →
      (checkShortEntry cross price ind candles 2 ind5).signal = true ∧
      (checkShortEntry cross price ind candles 3 ind5).signal = true) ∧
    ((checkShortEntry cross price ind candles 2 ind5).signal = true →
      (checkShortEntry cross price ind candles 3 ind5).signal = true) ∧
    (checkLongEntry alwaysCross 110 indMid [] 3 none).signal = true ∧
    (checkLongEntry alwaysCross 110 indMid [] 1 none).signal = false := by
  refine ⟨?_, ?_, ?_, ?_, by decide, by decide⟩
  · intro h
    rw [checkLongEntry_signal_iff] at h
    simp +decide at h
    obtain ⟨h1, h2, h3, h4, h5⟩ := h
    constructor
    · rw [checkLongEntry_signal_iff]
      simp +decide
      exact ⟨h1, h2, h3, by linarith, h5⟩
    · rw [checkLongEntry_signal_iff]
      simp +decide
      exact ⟨h1, h2, h3, by linarith⟩
  · intro h
    rw [checkLongEntry_signal_iff] at h
    simp +decide at h
    obtain ⟨h1, h2, h3, h4, h5⟩ := h
    rw [checkLongEntry_signal_iff]
    simp +decide
    exact ⟨h1, h2, h3, by linarith⟩
  · intro h
    rw [checkShortEntry_signal_iff] at h
    simp +decide at h
    obtain ⟨h1, h2, h3, h4, h5⟩ := h
    constructor
    · rw [checkShortEntry_signal_iff]
      simp +decide
      exact ⟨h1, h2, h3, by linarith, h5⟩
    · rw [checkShortEntry_signal_iff]
      simp +decide
      exact ⟨h1, h2, h3, by linarith⟩
  · intro h
    rw [checkShortEntry_signal_iff] at h
    simp +decide at h
    obtain ⟨h1, h2, h3, h4, h5⟩ := h
    rw [checkShortEntry_signal_iff]
    simp +decide
    exact ⟨h1, h2, h3, by linarith⟩

/-- Witness for C4: the strong snapshot signals long at tier 1, and by
the monotonicity theorem also at tiers 2 and 3. -/
theorem C4_tier_monotonicity_witness :
    (checkLongEntry alwaysCross 110 indHigh [] 1 none).signal = true ∧
    (checkLongEntry alwaysCross 110 indHigh [] 2 none).signal = true ∧
    (checkLongEntry alwaysCross 110 indHigh [] 3 none).signal = true := by
  refine ⟨by decide, ?_⟩
  exact (C4_tier_monotonicity alwaysCross 110 indHigh [] none).1 (by decide)

/-! ## C5: all-or-nothing snapshot construction -/

/-- C5: `calculateIndicators` returns `none` for histories shorter than
35 candles; a snapshot `some v` is produced exactly when every adapter
call succeeds with a non-null value and the ATR series is non-empty, in
which case every field of `v` is the corresponding adapter's value (so
no partial snapshot exists); and an adapter throwing (here: the MACD
adapter returning `Except.error`, or the ATR adapter doing so) makes
the result `none` — the error is absorbed at this boundary, never
propagated (the return type is `Option IndicatorValues`, not an
exception). -/
theorem C5_snapshot_all_or_nothing (A : IndicatorAdapters)
    (config : TradingConfig) (candles : List Candle) :
    (candles.length < 35 → calculateIndicators A config candles = none) ∧
    (∀ v : IndicatorValues,
      calculateIndicators A config candles = some v ↔
        35 ≤ candles.length ∧
        A.getLatestKeltnerChannel candles config.strategy.indicators.keltner
          = Except.ok (some v.keltner) ∧
        A.getLatestBollingerBands candles config.strategy.indicators.bollinger
          = Except.ok (some v.bollinger) ∧
        A.getLatestMACD candles config.strategy.indicators.macd
          = Except.ok (some v.macd) ∧
        A.getLatestCCI candles config.strategy.indicators.cci
          = Except.ok (some v.cci) ∧
        A.getLatestSuperTrend candles config.strategy.indicators.supertrend
          = Except.ok (some v.supertrend) ∧
        ∃ atrValues,
          A.calculateATR (candles.map fun c => c.high)
            (candles.map fun c => c.low) (candles.map fun c => c.close)
            config.strategy.indicators.keltner.atrPeriod
            = Except.ok atrValues ∧
          atrValues.getLast? = some v.atr) ∧
    (∀ msg, A.getLatestMACD candles config.strategy.indicators.macd
      = Except.error msg → calculateIndicators A config candles = none) ∧
    (A.calculateATR (candles.map fun c => c.high)
      (candles.map fun c => c.low) (candles.map fun c => c.close)
      config.strategy.indicators.keltner.atrPeriod = Except.ok [] →
      calculateIndicators A config candles = none) := by
  have hiff : ∀ v : IndicatorValues,
      calculateIndicators A config candles = some v ↔
        35 ≤ candles.length ∧
        A.getLatestKeltnerChannel candles config.strategy.indicators.keltner
          = Except.ok (some v.keltner) ∧
        A.getLatestBollingerBands candles config.strategy.indicators.bollinger
          = Except.ok (some v.bollinger) ∧
        A.getLatestMACD candles config.strategy.indicators.macd
          = Except.ok (some v.macd) ∧
        A.getLatestCCI candles config.strategy.indicators.cci
          = Except.ok (some v.cci) ∧
        A.getLatestSuperTrend candles config.strategy.indicators.supertrend
          = Except.ok (some v.supertrend) ∧
        ∃ atrValues,
          A.calculateATR (candles.map fun c => c.high)
            (candles.map fun c => c.low) (candles.map fun c => c.close)
            config.strategy.indicators.keltner.atrPeriod
            = Except.ok atrValues ∧
          atrValues.getLast? = some v.atr := by
    intro v
    obtain ⟨vk, vb, vm, vc, vs, va⟩ := v
    unfold calculateIndicators
    by_cases hlen : candles.length < 35
    · rw [if_pos hlen]
      simp only [reduceCtorEq, false_iff]
      rintro ⟨h35, -⟩
      omega
    · rw [if_neg hlen, Nat.not_lt] at *
      have ek : A.getLatestKeltnerChannel candles
            { maPeriod := config.strategy.indicators.keltner.maPeriod,
              atrPeriod := config.strategy.indicators.keltner.atrPeriod,
              atrMultiple := config.strategy.indicators.keltner.atrMultiple }
          = A.getLatestKeltnerChannel candles
              config.strategy.indicators.keltner := rfl
      have eb : A.getLatestBollingerBands candles
            { period := config.strategy.indicators.bollinger.period,
              deviation := config.strategy.indicators.bollinger.deviation }
          = A.getLatestBollingerBands candles
              config.strategy.indicators.bollinger := rfl
      have em : A.getLatestMACD candles
            { fastPeriod := config.strategy.indicators.macd.fastPeriod,
              slowPeriod := config.strategy.indicators.macd.slowPeriod,
              signalPeriod := config.strategy.indicators.macd.signalPeriod }
          = A.getLatestMACD candles config.strategy.indicators.macd := rfl
      have ec : A.getLatestCCI candles
            { period := config.strategy.indicators.cci.period }
          = A.getLatestCCI candles config.strategy.indicators.cci := rfl
      have es : A.getLatestSuperTrend candles
            { period := config.strategy.indicators.supertrend.period,
              multiplier := config.strategy.indicators.supertrend.multiplier }
          = A.getLatestSuperTrend candles
              config.strategy.indicators.supertrend := rfl
      simp only [ek, eb, em, ec, es]
      rcases hk : A.getLatestKeltnerChannel candles
          config.strategy.indicators.keltner with msg | k
      · simp [hk]
      rcases hb : A.getLatestBollingerBands candles
          config.strategy.indicators.bollinger with msg | b
      · simp [hb]
      rcases hm : A.getLatestMACD candles
          config.strategy.indicators.macd with msg | m
      · simp [hm]
      rcases hc : A.getLatestCCI candles
          config.strategy.indicators.cci with msg | c
      · simp [hc]
      rcases hs : A.getLatestSuperTrend candles
          config.strategy.indicators.supertrend with msg | s
      · simp [hs]
      rcases ha : A.calculateATR (candles.map fun c => c.high)
          (candles.map fun c => c.low) (candles.map fun c => c.close)
          config.strategy.indicators.keltner.atrPeriod with msg | atrValues
      · simp [ha]
      rcases k with - | k <;> rcases b with - | b <;> rcases m with - | m <;>
        rcases c with - | c <;> rcases s with - | s <;>
        rcases hl : atrValues.getLast? with - | a <;>
        simp_all
  refine ⟨?_, hiff, ?_, ?_⟩
  · intro h
    unfold calculateIndicators
    rw [if_pos h]
  · intro msg hmsg
    rcases hr : calculateIndicators A config candles with - | v
    · rfl
    · rw [hiff v] at hr
      rw [hmsg] at hr
      simp at hr
  · intro hempty
    rcases hr : calculateIndicators A config candles with - | v
    · rfl
    · rw [hiff v] at hr
      obtain ⟨-, -, -, -, -, -, atrValues, hok, hlast⟩ := hr
      rw [hempty] at hok
      obtain rfl : ([] : List ℚ) = atrValues := by
        simpa using hok
      simp at hlast

/-- Witness for C5: with adapters that all succeed on a 35-candle
history, the snapshot is populated field-for-field from the adapter
values; the empty history is rejected by the length guard, and a
throwing MACD adapter yields `none`. -/
theorem C5_snapshot_all_or_nothing_witness :
    calculateIndicators okAdapters cfgUnit candles35 = some indHigh ∧
    (([] : List Candle).length < 35 ∧
      calculateIndicators okAdapters cfgUnit [] = none) ∧
    (errAdapters.getLatestMACD candles35 cfgUnit.strategy.indicators.macd
        = Except.error "boom" ∧
      calculateIndicators errAdapters cfgUnit candles35 = none) := by
  refine ⟨?_, ⟨by decide, ?_⟩, ⟨rfl, ?_⟩⟩
  · exact (C5_snapshot_all_or_nothing okAdapters cfgUnit candles35).2.1
      indHigh |>.mpr ⟨by decide, rfl, rfl, rfl, rfl, rfl, [2], rfl, rfl⟩
  · exact (C5_snapshot_all_or_nothing okAdapters cfgUnit []).1 (by decide)
  · exact (C5_snapshot_all_or_nothing errAdapters cfgUnit
      candles35).2.2.1 "boom" rfl

/-! ## C9: determinism of signal generation -/

/-- C9: the `Signal` returned by `generateSignal` does not depend on
the mutable debug counters (for any input, including the empty candle
list), and for a non-empty 1-minute candle list it does not depend on
the wall clock either; hence two calls with identical candle lists,
configuration and adapters return field-for-field identical signals.
The only wall-clock dependence is the fallback timestamp of the
empty-candle-list signal. -/
theorem C9_generate_signal_determinism (A : IndicatorAdapters)
    (config : TradingConfig) (c1m : List Candle)
    (c5m : Option (List Candle)) (st st' : Counters) (now now' : Int) :
    ((generateSignal A config st now c1m c5m).1 =
      (generateSignal A config st' now c1m c5m).1) ∧
    (c1m ≠ [] →
      (generateSignal A config st now c1m c5m).1 =
        (generateSignal A config st' now' c1m c5m).1) := by
  constructor
  · rcases h : c1m.getLast? with - | last
    · simp [generateSignal, h]
    · simp only [generateSignal, h]
      rcases hi : calculateIndicators A config c1m with - | ind
      · simp [hi]
      · simp only [hi]
        split_ifs <;> rfl
  · intro hne
    rcases h : c1m.getLast? with - | last
    · rw [List.getLast?_eq_none_iff] at h
      exact absurd h hne
    · simp only [generateSignal, h]
      rcases hi : calculateIndicators A config c1m with - | ind
      · simp [hi]
      · simp only [hi]
        split_ifs <;> rfl

/-- Witness for C9: on the one-candle history the returned signal is
the same for two different counter states and two different clock
readings. -/
theorem C9_generate_signal_determinism_witness :
    ([candle0] ≠ ([] : List Candle)) ∧
    (generateSignal okAdapters cfgUnit
        { signalCheckCount := 0, indicatorFailCount := 0,
          longCheckCount := 0, shortCheckCount := 0 } 0 [candle0] none).1 =
      (generateSignal okAdapters cfgUnit
        { signalCheckCount := 7, indicatorFailCount := 5,
          longCheckCount := 3, shortCheckCount := 2 } 99 [candle0] none).1 := by
  refine ⟨by decide, ?_⟩
  exact (C9_generate_signal_determinism okAdapters cfgUnit [candle0] none
    { signalCheckCount := 0, indicatorFailCount := 0,
      longCheckCount := 0, shortCheckCount := 0 }
    { signalCheckCount := 7, indicatorFailCount := 5,
      longCheckCount := 3, shortCheckCount := 2 } 0 99).2 (by decide)

/-! ## C6: breakeven lock -/

/-- C6: whenever the tick's profit-in-R is at least 1.0, the returned
trailing stop is non-null and at least the entry price for a long
position (at most the entry price for a short position), for every ATR
value and every carried extreme price. -/
theorem C6_breakeven_lock (config : TradingConfig)
    (entryPrice currentPrice : ℚ) (hp lp : Option ℚ)
    (initialStopLoss atr : ℚ) :
    ((currentPrice - entryPrice) /
        riskDistance entryPrice initialStopLoss ≥ 1 →
      ∃ t, (calculateTrailingStop config entryPrice currentPrice hp lp
          initialStopLoss Side.long atr).trailingStop = some t ∧
        entryPrice ≤ t) ∧
    ((entryPrice - currentPrice) /
        riskDistance entryPrice initialStopLoss ≥ 1 →
      ∃ t, (calculateTrailingStop config entryPrice currentPrice hp lp
          initialStopLoss Side.short atr).trailingStop = some t ∧
        t ≤ entryPrice) := by
  constructor
  · intro h
    simp only [calculateTrailingStop]
    rw [if_pos h]
    exact ⟨_, rfl, le_max_left _ _⟩
  · intro h
    simp only [calculateTrailingStop]
    rw [if_pos h]
    exact ⟨_, rfl, min_le_left _ _⟩

/-- Witness for C6: entry 100, initial stop 90, tick price 110 is
exactly 1R in profit; the long trailing stop exists and is at least
the entry price. -/
theorem C6_breakeven_lock_witness :
    ((110 : ℚ) - 100) / riskDistance 100 90 ≥ 1 ∧
    ∃ t, (calculateTrailingStop cfgUnit 100 110 none none 90 Side.long
        5).trailingStop = some t ∧ (100 : ℚ) ≤ t := by
  have h : ((110 : ℚ) - 100) / riskDistance 100 90 ≥ 1 := by
    norm_num [riskDistance]
  exact ⟨h, (C6_breakeven_lock cfgUnit 100 110 none none 90 5).1 h⟩

/-! ## C10: the profit-in-R division -/

/-- C10: on every call and for both sides, the `active` decision is
taken by dividing the tick's profit by
`riskDistance entryPrice initialStopLoss` with no guard on the
divisor; the divisor is zero exactly when `entryPrice` equals
`initialStopLoss`, so under the precondition
`entryPrice ≠ initialStopLoss` the division is by a nonzero quantity
and is well-defined. -/
theorem C10_unguarded_profit_division (config : TradingConfig)
    (entryPrice currentPrice : ℚ) (hp lp : Option ℚ)
    (initialStopLoss atr : ℚ) :
    ((calculateTrailingStop config entryPrice currentPrice hp lp
        initialStopLoss Side.long atr).active =
      decide ((currentPrice - entryPrice) /
        riskDistance entryPrice initialStopLoss ≥ 1)) ∧
    ((calculateTrailingStop config entryPrice currentPrice hp lp
        initialStopLoss Side.short atr).active =
      decide ((entryPrice - currentPrice) /
        riskDistance entryPrice initialStopLoss ≥ 1)) ∧
    (riskDistance entryPrice initialStopLoss = 0 ↔
      entryPrice = initialStopLoss) ∧
    (entryPrice ≠ initialStopLoss →
      riskDistance entryPrice initialStopLoss ≠ 0) := by
  have hzero : riskDistance entryPrice initialStopLoss = 0 ↔
      entryPrice = initialStopLoss := by
    simp [riskDistance, abs_eq_zero, sub_eq_zero]
  refine ⟨?_, ?_, hzero, fun hne h => hne (hzero.mp h)⟩
  · simp only [calculateTrailingStop]
    split_ifs with h <;> simp [h]
  · simp only [calculateTrailingStop]
    split_ifs with h <;> simp [h]

/-- Witness for C10: with entry 100 and initial stop 90 the divisor is
the nonzero `riskDistance 100 90 = 10`. -/
theorem C10_unguarded_profit_division_witness :
    (100 : ℚ) ≠ 90 ∧ riskDistance 100 90 ≠ 0 := by
  refine ⟨by norm_num, ?_⟩
  exact (C10_unguarded_profit_division cfgUnit 100 110 none none 90
    1).2.2.2 (by norm_num)

/-! ## C2: the active flag is not persistent (corrected) -/

/-- C2 counterexample: entry 100, initial stop 90 (risk 10). The tick
at price 110 is exactly 1R in profit and returns `active = true`; the
next tick at price 105, threading the returned extreme 110 forward,
is only 0.5R in profit and the very same position returns
`active = false` with `trailingStop = null` — the state machine does
return from active to passive, refuting the claim. -/
theorem C2_active_not_persistent_counterexample :
    (calculateTrailingStop cfgUnit 100 110 none none 90 Side.long
        1).active = true ∧
    (calculateTrailingStop cfgUnit 100 110 none none 90 Side.long
        1).highestPrice = 110 ∧
    (calculateTrailingStop cfgUnit 100 105 (some 110) none 90 Side.long
        1).active = false ∧
    (calculateTrailingStop cfgUnit 100 105 (some 110) none 90 Side.long
        1).trailingStop = none := by
  refine ⟨?_, ?_, ?_, ?_⟩ <;>
    · simp only [calculateTrailingStop, riskDistance, cfgUnit]
      norm_num

/-- C2 (amended): the `active` flag reflects only the current tick —
each call returns `active = true` exactly when that tick's profit-in-R
is at least 1.0, and the trailing stop is non-null exactly when the
call is active; a later call whose profit-in-R has fallen below 1.0
therefore returns to the passive state (`active = false`,
`trailingStop = null`). -/
theorem C2_active_iff_current_profit (config : TradingConfig)
    (entryPrice currentPrice : ℚ) (hp lp : Option ℚ)
    (initialStopLoss atr : ℚ) :
    ((calculateTrailingStop config entryPrice currentPrice hp lp
        initialStopLoss Side.long atr).active = true ↔
      (currentPrice - entryPrice) /
        riskDistance entryPrice initialStopLoss ≥ 1) ∧
    ((calculateTrailingStop config entryPrice currentPrice hp lp
        initialStopLoss Side.long atr).trailingStop.isSome = true ↔
      (calculateTrailingStop config entryPrice currentPrice hp lp
        initialStopLoss Side.long atr).active = true) ∧
    ((calculateTrailingStop config entryPrice currentPrice hp lp
        initialStopLoss Side.short atr).active = true ↔
      (entryPrice - currentPrice) /
        riskDistance entryPrice initialStopLoss ≥ 1) ∧
    ((calculateTrailingStop config entryPrice currentPrice hp lp
        initialStopLoss Side.short atr).trailingStop.isSome = true ↔
      (calculateTrailingStop config entryPrice currentPrice hp lp
        initialStopLoss Side.short atr).active = true) := by
  refine ⟨?_, ?_, ?_, ?_⟩ <;>
    · simp only [calculateTrailingStop]
      split_ifs with h <;> simp [h]

/-! ## C1: the trailing-stop ratchet (corrected) -/

/-- C1 counterexample: entry 100, initial stop 90, trailing distance
multiplier 1. A tick at price 120 with ATR 1 yields the trailing stop
119 and extreme 120; the next tick at the worse price 119 (still 1.9R
in profit, so active) with ATR 10, threading the extreme 120 forward,
yields the trailing stop 110 < 119 — with a varying per-tick ATR the
stop moved against the position, refuting the claim as stated. -/
theorem C1_trailing_ratchet_counterexample :
    (calculateTrailingStop cfgUnit 100 120 none none 90 Side.long
        1).active = true ∧
    (calculateTrailingStop cfgUnit 100 120 none none 90 Side.long
        1).trailingStop = some 119 ∧
    (calculateTrailingStop cfgUnit 100 120 none none 90 Side.long
        1).highestPrice = 120 ∧
    (calculateTrailingStop cfgUnit 100 119 (some 120) none 90 Side.long
        10).active = true ∧
    (calculateTrailingStop cfgUnit 100 119 (some 120) none 90 Side.long
        10).trailingStop = some 110 ∧
    (110 : ℚ) < 119 := by
  refine ⟨?_, ?_, ?_, ?_, ?_, by norm_num⟩ <;>
    · simp only [calculateTrailingStop, riskDistance, cfgUnit]
      norm_num

/-- C1 (amended): across two successive active calls for the same
position (same entry, side and initial stop, threading the returned
extreme forward), the trailing stop never moves against the position
provided the ATR trailing distance does not increase between the two
ticks — in particular for a constant per-tick ATR. (With an increasing
ATR the stop can loosen, per the counterexample.) -/
theorem C1_trailing_ratchet_nonincreasing_distance
    (config : TradingConfig) (entryPrice cp1 cp2 initialStopLoss : ℚ)
    (atr1 atr2 t1 t2 : ℚ) (hp lp : Option ℚ) :
    (atr2 * config.strategy.trailingDistance ≤
        atr1 * config.strategy.trailingDistance →
      (calculateTrailingStop config entryPrice cp1 hp none
        initialStopLoss Side.long atr1).trailingStop = some t1 →
      (calculateTrailingStop config entryPrice cp2
        (some (calculateTrailingStop config entryPrice cp1 hp none
          initialStopLoss Side.long atr1).highestPrice) none
        initialStopLoss Side.long atr2).trailingStop = some t2 →
      t1 ≤ t2) ∧
    (atr2 * config.strategy.trailingDistance ≤
        atr1 * config.strategy.trailingDistance →
      (calculateTrailingStop config entryPrice cp1 none lp
        initialStopLoss Side.short atr1).trailingStop = some t1 →
      (calculateTrailingStop config entryPrice cp2 none
        (some (calculateTrailingStop config entryPrice cp1 none lp
          initialStopLoss Side.short atr1).lowestPrice)
        initialStopLoss Side.short atr2).trailingStop = some t2 →
      t2 ≤ t1) := by
  constructor
  · intro hatr h1 h2
    rcases hp with - | h0
    all_goals
      simp only [calculateTrailingStop, riskDistance] at h1 h2
      split_ifs at h1 h2
      simp only [Option.some.injEq, reduceCtorEq] at h1 h2
      subst h1
      subst h2
      refine max_le_max le_rfl ?_
    · linarith [le_max_left cp1 cp2]
    · linarith [le_max_left (max h0 cp1) cp2]
  · intro hatr h1 h2
    rcases lp with - | l0
    all_goals
      simp only [calculateTrailingStop, riskDistance] at h1 h2
      split_ifs at h1 h2
      simp only [Option.some.injEq, reduceCtorEq] at h1 h2
      subst h1
      subst h2
      refine min_le_min le_rfl ?_
    · linarith [min_le_left cp1 cp2]
    · linarith [min_le_left (min l0 cp1) cp2]

/-- Witness for C1 (amended): with a constant ATR of 1 the stop stays
at 119 when the price ticks down from 120 to 119 — it does not move
against the position. -/
theorem C1_trailing_ratchet_witness :
    (calculateTrailingStop cfgUnit 100 120 none none 90 Side.long
        1).trailingStop = some 119 ∧
    (calculateTrailingStop cfgUnit 100 119
      (some (calculateTrailingStop cfgUnit 100 120 none none 90 Side.long
        1).highestPrice) none 90 Side.long 1).trailingStop = some 119 ∧
    (119 : ℚ) ≤ 119 := by
  have h1 : (calculateTrailingStop cfgUnit 100 120 none none 90 Side.long
      1).trailingStop = some 119 := by
    simp only [calculateTrailingStop, riskDistance, cfgUnit]
    norm_num
  have h2 : (calculateTrailingStop cfgUnit 100 119
      (some (calculateTrailingStop cfgUnit 100 120 none none 90 Side.long
        1).highestPrice) none 90 Side.long 1).trailingStop = some 119 := by
    simp only [calculateTrailingStop, riskDistance, cfgUnit]
    norm_num
  exact ⟨h1, h2,
    (C1_trailing_ratchet_nonincreasing_distance cfgUnit 100 120 119 90
      1 1 119 119 none none).1 (by norm_num) h1 h2⟩

end XAUUSDStrategy
